import Mathlib

/-!
Verification development for the CrazeDynPanel process-lifecycle and
persistence subsystem (src/main/app/core/server_store.py and
src/main/app/core/server_manager.py), shallowly embedded in Lean 4.

The embedding models JSON documents as an inductive `JVal`, Python dicts as
ordered association lists (Python dicts preserve insertion order), the file
system as association lists from path to content, and OS-level facts that the
code queries (pid liveness, process exit, spawn results, the Java dependency
check) as explicit oracle parameters bundled in a `World` structure.
-/

/-- JSON values, as produced by Python's `json.load`.  Numbers are modelled as
integers (every numeric field of the store schema -- `port`, `storage_limit`,
`pid` -- is an integer in the source). -/
inductive JVal where
  | null
  | bool (b : Bool)
  | num (n : Int)
  | str (s : String)
  | arr (xs : List JVal)
  | obj (fields : List (String × JVal))

/-- First-match lookup in an ordered association list (Python `dict.get`). -/
def lookupA {α : Type} : List (String × α) → String → Option α
  | [], _ => none
  | (k', v) :: rest, k => if k' = k then some v else lookupA rest k

/-- Update-or-append in an ordered association list (Python `d[k] = v`:
replaces in place when the key exists, appends otherwise, preserving
insertion order). -/
def updateA {α : Type} : List (String × α) → String → α → List (String × α)
  | [], k, v => [(k, v)]
  | (k', v') :: rest, k, v =>
      if k' = k then (k, v) :: rest else (k', v') :: updateA rest k v

/-- Remove the first binding of a key (Python `del d[k]`). -/
def eraseA {α : Type} : List (String × α) → String → List (String × α)
  | [], _ => []
  | (k', v') :: rest, k => if k' = k then rest else (k', v') :: eraseA rest k

/-- The keys of an association list are pairwise distinct (always true of a
Python dict; stated explicitly because the embedding uses lists). -/
def keysNodup {α : Type} (m : List (String × α)) : Prop :=
  (m.map Prod.fst).Nodup

/-- The nine schema fields of a persisted server record, from
`ServerStore._validate_and_normalize`. -/
def knownKeys : List String :=
  ["name", "path", "jar", "min_ram", "max_ram", "port", "storage_limit", "pid", "status"]

/-- Normalization of a single server entry, from
`ServerStore._validate_and_normalize`: fills each schema field from the entry
(with the documented default when absent; `pid` defaults to `None`, i.e.
JSON null) and then appends every non-schema field verbatim, preserving
order. -/
def normalizeServer (serverName : String) (fields : List (String × JVal)) :
    List (String × JVal) :=
  [ ("name", (lookupA fields "name").getD (.str serverName)),
    ("path", (lookupA fields "path").getD (.str ("servers/" ++ serverName))),
    ("jar", (lookupA fields "jar").getD (.str "paper-1.20.1.jar")),
    ("min_ram", (lookupA fields "min_ram").getD (.str "512M")),
    ("max_ram", (lookupA fields "max_ram").getD (.str "1024M")),
    ("port", (lookupA fields "port").getD (.num 25565)),
    ("storage_limit", (lookupA fields "storage_limit").getD (.num 10)),
    ("pid", (lookupA fields "pid").getD .null),
    ("status", (lookupA fields "status").getD (.str "stopped")) ]
  ++ fields.filter (fun p => !(knownKeys.contains p.1))

/-- Embeds `ServerStore._validate_and_normalize`: a non-dict document becomes the
empty map; entries whose value is not a dict are dropped; every remaining
entry is normalized.  Iteration order of the source dict is preserved. -/
def validateAndNormalize : JVal → List (String × JVal)
  | .obj entries =>
      entries.filterMap (fun p =>
        match p.2 with
        | .obj fields => some (p.1, JVal.obj (normalizeServer p.1 fields))
        | _ => none)
  | _ => []

/-- File contents: either bytes that parse as JSON (carrying the parsed
value) or bytes that do not.  `json.dump` output of a value `v` is the
`valid v` content; `json.load` of `garbage s` raises `JSONDecodeError`. -/
inductive Content where
  | valid (v : JVal)
  | garbage (s : String)

/-- The store's on-disk neighbourhood: `servers.json` itself, the `.tmp`
sibling used by the atomic write, the `.bak` sibling used by the Windows
move-aside path of `_save_servers_atomic`, and the `.json.backup` sibling
used by the corruption quarantine in `load_servers`.  `none` means the file
does not exist. -/
structure StoreFS where
  servers : Option Content
  tmp : Option Content
  bak : Option Content
  backup : Option Content

/-- Failure injection for the I/O steps of `_save_servers_atomic`: the
temp-file write (open/dump/flush/fsync), the Windows move-aside of the old
file, and the move of the temp file over the target. -/
structure SaveFail where
  writeTmp : Bool
  moveAside : Bool
  moveIn : Bool

/-- Embeds `ServerStore._save_servers_atomic`.  Normalizes, writes the serialized
map to the `.tmp` sibling and fsyncs, then moves it over the target --
directly on POSIX, via a move-aside of the existing target to `.bak`
followed by a move-in and `.bak` cleanup on Windows.  Any exception is
caught: the handler unlinks the temp file if present and the call returns
`false`. -/
def saveAtomic (windows : Bool) (fl : SaveFail) (fs : StoreFS) (data : JVal) :
    Bool × StoreFS :=
  let out := Content.valid (JVal.obj (validateAndNormalize data))
  if fl.writeTmp then
    (false, { fs with tmp := none })
  else
    let fs1 := { fs with tmp := some out }
    if windows then
      match fs1.servers with
      | some oldC =>
          if fl.moveAside then (false, { fs1 with tmp := none })
          else
            let fs2 := { fs1 with bak := some oldC, servers := none }
            if fl.moveIn then (false, { fs2 with tmp := none })
            else (true, { fs2 with servers := some out, tmp := none, bak := none })
      | none =>
          if fl.moveIn then (false, { fs1 with tmp := none })
          else (true, { fs1 with servers := some out, tmp := none, bak := none })
    else
      if fl.moveIn then (false, { fs1 with tmp := none })
      else (true, { fs1 with servers := some out, tmp := none })

/-- Result of `json.load` on a file's bytes. -/
def parseContent : Content → Option JVal
  | .valid v => some v
  | .garbage _ => none

/-- Embeds `ServerStore.load_servers`.  Missing file: write an empty map and return
it.  Parse failure (`JSONDecodeError`): copy the corrupt bytes to the
`.json.backup` sibling (`shutil.copy2` overwrites any prior backup),
reinitialize the store with an empty map via the atomic writer, and return
the empty map -- nothing is raised to the caller.  Otherwise: return the
normalized parsed map, leaving the file system untouched. -/
def loadServers (windows : Bool) (fl : SaveFail) (fs : StoreFS) :
    List (String × JVal) × StoreFS :=
  match fs.servers with
  | none =>
      let r := saveAtomic windows fl fs (.obj [])
      ([], r.2)
  | some c =>
      match parseContent c with
      | some v => (validateAndNormalize v, fs)
      | none =>
          let fs1 := { fs with backup := some c }
          let r := saveAtomic windows fl fs1 (.obj [])
          ([], r.2)

/-- In-memory server entity, from `MinecraftServer.__init__` in
`server_manager.py`.  The `process` field is the `subprocess.Popen` handle,
identified here by the pid it wraps (`none` when detached); the advisory
float gauges `cpu_usage`/`ram_usage` are omitted (floating point, never read
by the modelled operations). -/
structure MCServer where
  name : String
  path : String
  jar : String
  min_ram : String
  max_ram : String
  port : Nat
  storage_limit : Nat
  process : Option Nat
  pid : Option Nat
  status : String
  console_lines : List String
deriving DecidableEq

/-- Persisted shape of a server, from `MinecraftServer.to_dict`. -/
structure PRec where
  name : String
  path : String
  jar : String
  min_ram : String
  max_ram : String
  port : Nat
  storage_limit : Nat
  pid : Option Nat
  status : String
deriving DecidableEq

/-- Embeds `MinecraftServer.to_dict`: drop the live handle and console buffer. -/
def toDict (s : MCServer) : PRec :=
  { name := s.name
    path := s.path
    jar := s.jar
    min_ram := s.min_ram
    max_ram := s.max_ram
    port := s.port
    storage_limit := s.storage_limit
    pid := s.pid
    status := s.status }

/-- Observable state of a `ServerManager`: the in-memory map, the persisted
store contents, and the scaffold files on disk (path to bytes; the
`servers.json` store file is modelled separately as `store`). -/
structure MgrState where
  servers : List (String × MCServer)
  store : List (String × PRec)
  disk : List (String × String)
deriving DecidableEq

/-- Environment oracles consumed by the manager: `psutil.pid_exists`,
`Popen.poll() is not None`, whether a process exits within the 30-second
grace of `Popen.wait(timeout=30)`, the result of
`DependencyChecker.check_java()` (`none` when the check itself raised, in
which case the code proceeds anyway), directory existence, the outcome of
the on-demand jar download, and the pid assigned by `subprocess.Popen`
(`none` when the spawn call raises). -/
structure World where
  pidExists : Nat → Bool
  exited : Nat → Bool
  gracefulExit : Nat → Bool
  javaCheck : Option (Bool × Bool)
  dirExists : String → Bool
  downloadOk : Bool
  spawnResult : Option Nat

/-- Externally visible side effects of a control operation, beyond the
returned state: a line written to the child's stdin, a forced kill, and a
write of the persisted store. -/
inductive Effect where
  | stdinWrite (pid : Nat) (line : String)
  | kill (pid : Nat)
  | persist
deriving DecidableEq

/-- Embeds `ServerManager.save_servers`: serialize every in-memory record through
`to_dict` and hand the map to the store's atomic writer.  A `to_dict` image
carries all nine schema fields and no extras, so the store-level
normalization is the identity on it; the successful write is modelled
directly. -/
def mgrSave (st : MgrState) : MgrState :=
  { st with store := st.servers.map (fun p => (p.1, toDict p.2)) }

/-- Does a file exist on the modelled disk? -/
def hasFile (disk : List (String × String)) (p : String) : Bool :=
  (lookupA disk p).isSome

/-- Create or overwrite a file on the modelled disk. -/
def writeFile (disk : List (String × String)) (p c : String) :
    List (String × String) :=
  updateA disk p c

/-- The Aikar JVM tuning flags interpolated into both `start.bat` and the
launch command in `start_server`. -/
def jvmFlags : String :=
  "-XX:+UseG1GC -XX:+ParallelRefProcEnabled -XX:MaxGCPauseMillis=200 " ++
  "-XX:+UnlockExperimentalVMOptions -XX:+DisableExplicitGC -XX:+AlwaysPreTouch " ++
  "-XX:G1NewSizePercent=30 -XX:G1MaxNewSizePercent=40 -XX:G1HeapRegionSize=8M " ++
  "-XX:G1ReservePercent=20 -XX:G1HeapWastePercent=5 -XX:G1MixedGCCountTarget=4 " ++
  "-XX:InitiatingHeapOccupancyPercent=15 -XX:G1MixedGCLiveThresholdPercent=90 " ++
  "-XX:G1RSetUpdatingPauseTimePercent=5 -XX:SurvivorRatio=32 " ++
  "-XX:+PerfDisableSharedMem -XX:MaxTenuringThreshold=1 " ++
  "-Dusing.aikars.flags=https://mcflags.emc.gs -Daikars.new.flags=true"

/-- Embeds `ServerManager._create_start_batch`: the launch script embedding the
memory bounds and jar name. -/
def batContent (s : MCServer) : String :=
  "@echo off\ntitle " ++ s.name ++ " - Minecraft Server\necho Starting " ++
  s.name ++ "...\necho.\njava -Xms" ++ s.min_ram ++ " -Xmx" ++ s.max_ram ++
  " " ++ jvmFlags ++ " -jar " ++ s.jar ++
  " nogui\necho.\necho Server stopped. Press any key to close...\npause\n"

/-- Embeds `ServerManager._create_server_properties`: the run-time property file
embedding the network port (the generation timestamp is the `now`
argument). -/
def propsContent (now : String) (s : MCServer) : String :=
  "# Minecraft server properties\n# Generated by CrazeDyn Panel - " ++ now ++
  "\n# Optimized for low ping and high performance\nserver-port=" ++
  toString s.port ++
  "\nserver-ip=\ngamemode=survival\ndifficulty=easy\nspawn-protection=16\n" ++
  "max-players=20\nlevel-name=world\nlevel-type=minecraft:normal\n" ++
  "enable-command-block=true\nonline-mode=true\npvp=true\nwhite-list=false\n" ++
  "allow-nether=true\ngenerate-structures=true\nenforce-whitelist=false\n" ++
  "enable-query=true\nenable-rcon=false\n" ++
  "# Performance optimizations for reduced ping\nview-distance=8\n" ++
  "simulation-distance=6\nnetwork-compression-threshold=256\n" ++
  "max-tick-time=60000\nsync-chunk-writes=false\n" ++
  "prevent-proxy-connections=false\nuse-native-transport=true\nmotd=§6" ++
  s.name ++ " §f- §bPowered by CrazeDyn Panel\n"

/-- Embeds `ServerManager._create_eula_file`: the license-acceptance marker. -/
def eulaContent : String :=
  "# By running the server you are agreeing to the Minecraft EULA\n" ++
  "# https://account.mojang.com/documents/minecraft_eula\neula=true\n"

/-- Embeds `MinecraftServer.__init__`: a freshly constructed record is detached
(`process`/`pid` are `None`), `stopped`, with an empty console buffer. -/
def mkServerRecord (name path jar min_ram max_ram : String)
    (port storage_limit : Nat) : MCServer :=
  { name := name
    path := path
    jar := jar
    min_ram := min_ram
    max_ram := max_ram
    port := port
    storage_limit := storage_limit
    process := none
    pid := none
    status := "stopped"
    console_lines := [] }

/-- Embeds `ServerManager.create_server`.  Resolves the working directory (the
falsy or literal-"servers" storage path becomes the cwd-relative `servers`
directory, so the recorded path is `servers/<name>`), derives the jar name
from the version, writes the three scaffold files (`start.bat`,
`server.properties`, `eula.txt`), registers the record in the map --
overwriting any existing binding for the name, there is no uniqueness
check -- and persists.  Directory creation (`mkdir exist_ok`, `plugins/`,
`logs/`) has no observable effect on the modelled file map; the generic
exception path (I/O failure, returning `False`) is outside the modelled
world. -/
def createServer (now : String) (st : MgrState)
    (name version min_ram max_ram storage_path : String)
    (port storage_limit : Nat) : Bool × MgrState :=
  let base := if storage_path = "" || storage_path = "servers" then "servers"
              else storage_path
  let serverPath := base ++ "/" ++ name
  let jarName := "paper-" ++ version ++ ".jar"
  let s := mkServerRecord name serverPath jarName min_ram max_ram port storage_limit
  let disk1 := writeFile st.disk (serverPath ++ "/start.bat") (batContent s)
  let disk2 := writeFile disk1 (serverPath ++ "/server.properties") (propsContent now s)
  let disk3 := writeFile disk2 (serverPath ++ "/eula.txt") eulaContent
  (true, mgrSave { st with servers := updateA st.servers name s, disk := disk3 })

/-- Does the `DependencyChecker.check_java()` result make `start_server`
return early?  It does when the check reports Java missing, or installed but
incompatible; a raised check (`none`) is caught and the start proceeds. -/
def javaBlocks : Option (Bool × Bool) → Bool
  | some (false, _) => true
  | some (true, false) => true
  | _ => false

/-- Embeds `ServerManager.start_server`.  Returns the success flag, the new state,
and the successive values assigned to the record's `status` field during the
call.  Unknown name: `False`.  Already `running`: `True`, untouched.  After
the Java gate and the directory check, a missing `start.bat` is recreated
and a missing jar triggers one download attempt (failure: `False`).  The
spawn resets the console buffer first; a raised spawn is caught and leaves
the record `stopped`.  On success the code records the pid, sets `starting`,
sleeps half a second, then overwrites the status with the result of a bare
pid-liveness check -- `running` when the pid is alive, before any output has
been read -- launches the reader thread, persists, and returns `True`. -/
def startServer (w : World) (st : MgrState) (name : String) :
    Bool × MgrState × List String :=
  match lookupA st.servers name with
  | none => (false, st, [])
  | some s =>
    if s.status = "running" then (true, st, [])
    else if javaBlocks w.javaCheck then (false, st, [])
    else if !(w.dirExists s.path) then (false, st, [])
    else
      let batPath := s.path ++ "/start.bat"
      let disk1 := if hasFile st.disk batPath then st.disk
                   else writeFile st.disk batPath (batContent s)
      let jarPath := s.path ++ "/" ++ s.jar
      if hasFile disk1 jarPath || w.downloadOk then
        let disk2 := if hasFile disk1 jarPath then disk1
                     else writeFile disk1 jarPath "downloaded-server-jar"
        match w.spawnResult with
        | none =>
            let s2 := { s with console_lines := [], status := "stopped" }
            (false, { st with servers := updateA st.servers name s2, disk := disk2 },
             ["stopped"])
        | some p =>
            let finalStatus := if w.pidExists p then "running" else "stopped"
            let s2 :=
              { s with
                console_lines := []
                process := some p
                pid := some p
                status := finalStatus }
            (true,
             mgrSave { st with servers := updateA st.servers name s2, disk := disk2 },
             ["starting", finalStatus])
      else (false, { st with disk := disk1 }, [])

/-- Embeds `ServerManager.stop_server`.  Unknown name: `False`.  Already
`stopped`: `True` immediately -- the code returns before the `try` block, so
nothing is written to stdin, no signal is sent, the record and the store are
untouched.  Otherwise: when the handle is attached and not yet exited, write
the graceful `stop` line and wait out the grace period, killing on timeout;
either way the record ends `stopped` and detached and the map is
persisted. -/
def stopServer (w : World) (st : MgrState) (name : String) :
    Bool × MgrState × List Effect :=
  match lookupA st.servers name with
  | none => (false, st, [])
  | some s =>
    if s.status = "stopped" then (true, st, [])
    else
      let effs :=
        match s.process with
        | some hp =>
            if w.exited hp then []
            else if w.gracefulExit hp then [Effect.stdinWrite hp "stop"]
            else [Effect.stdinWrite hp "stop", Effect.kill hp]
        | none => []
      let s2 := { s with status := "stopped", pid := none, process := none }
      let st2 := mgrSave { st with servers := updateA st.servers name s2 }
      (true, st2, effs ++ [Effect.persist])

/-- Embeds `ServerManager.delete_server`: for a registered name, stop first
(ignoring its result), remove the record from the map, persist, and return
`True`.  No file on disk is touched. -/
def deleteServer (w : World) (st : MgrState) (name : String) :
    Bool × MgrState × List Effect :=
  match lookupA st.servers name with
  | some _ =>
      let r := stopServer w st name
      let st2 := r.2.1
      let st3 := mgrSave { st2 with servers := eraseA st2.servers name }
      (true, st3, r.2.2 ++ [Effect.persist])
  | none => (false, st, [])

/-- Embeds `ServerManager.get_server_status`.  For a registered name the result is
a bare liveness check of the recorded pid (Python truthiness: a pid of 0 is
falsy); the record is not mutated -- the unchanged state is returned to make
that explicit.  An unregistered name yields the string `"unknown"`. -/
def getServerStatus (w : World) (st : MgrState) (name : String) :
    String × MgrState :=
  match lookupA st.servers name with
  | some s =>
      match s.pid with
      | some p => if (p != 0) && w.pidExists p then ("running", st) else ("stopped", st)
      | none => ("stopped", st)
  | none => ("unknown", st)

/-- One record's share of a `_monitor_all_servers` tick: records believed
`running` with an attached handle are checked against the OS --
`psutil.Process` raising (pid gone) or `poll()` reporting an exit code both
clear the record to `stopped`/detached.  Gauge refreshes are advisory floats
and not modelled.  The tick never writes the persisted store. -/
def pollTickServer (w : World) (s : MCServer) : MCServer :=
  if s.status = "running" && s.process.isSome then
    match s.pid with
    | some p =>
        if w.pidExists p then
          if w.exited p then { s with status := "stopped", pid := none, process := none }
          else s
        else { s with status := "stopped", pid := none, process := none }
    | none => s
  else s

/-- One iteration of `ServerManager._monitor_all_servers` over the whole
map.  Only the in-memory records change; `save_servers` is never called
here. -/
def pollTick (w : World) (st : MgrState) : MgrState :=
  { st with servers := st.servers.map (fun p => (p.1, pollTickServer w p.2)) }

/-- Python `needle in hay` substring test. -/
def containsSub (hay needle : String) : Bool :=
  (hay.splitOn needle).length != 1

/-- The readiness marker test of `_monitor_server_output`:
`"Done (" in line and "For help, type" in line`. -/
def readinessMarker (line : String) : Bool :=
  containsSub line "Done (" && containsSub line "For help, type"

/-- Ring-buffer append from `_monitor_server_output`: push the formatted
line, then keep only the last 1000 entries (`console_lines[-1000:]`) once
the buffer exceeds 1000. -/
def appendConsole (buf : List String) (l : String) : List String :=
  if (buf ++ [l]).length > 1000 then
    (buf ++ [l]).drop ((buf ++ [l]).length - 1000)
  else buf ++ [l]

/-- Processing of one raw line read by `_monitor_server_output`: strip
(`rstrip` of newlines followed by `strip` collapses to a trim), ignore empty
results, otherwise timestamp-prefix, append to the ring buffer, and -- when
the line carries the readiness marker -- set the record's status to
`running` and persist. -/
def monitorLine (ts : String) (st : MgrState) (name : String) (rawLine : String) :
    MgrState :=
  let line := rawLine.trim
  match lookupA st.servers name with
  | some s =>
      if line = "" then st
      else
        let formatted := "[" ++ ts ++ "] " ++ line
        let s2 := { s with console_lines := appendConsole s.console_lines formatted }
        if readinessMarker line then
          mgrSave { st with servers := updateA st.servers name { s2 with status := "running" } }
        else { st with servers := updateA st.servers name s2 }
  | none => st

/-- Python slice `l[-n:]`: the whole list when `n = 0` (since `-0` is `0`),
otherwise the last `n` elements. -/
def pySliceLast {α : Type} (n : Nat) (l : List α) : List α :=
  if n = 0 then l else l.drop (l.length - n)

/-- Embeds `ServerManager.get_console_output`: the most recent `lines` entries of
the buffer; an unregistered name or an empty buffer yields `[]`.  Pure -- it
neither blocks nor mutates. -/
def getConsoleOutput (st : MgrState) (name : String) (lines : Nat) : List String :=
  match lookupA st.servers name with
  | some s => if s.console_lines.isEmpty then [] else pySliceLast lines s.console_lines
  | none => []

/-! Helper lemmas about the association-list and ring-buffer primitives. -/

theorem lookupA_updateA_self {α : Type} (m : List (String × α)) (k : String) (v : α) :
    lookupA (updateA m k v) k = some v := by
  induction m with
  | nil => simp [updateA, lookupA]
  | cons hd tl ih =>
    by_cases h : hd.1 = k
    · simp [updateA, lookupA, h]
    · simp [updateA, lookupA, h, ih]

theorem lookupA_map {α β : Type} (f : α → β) (m : List (String × α)) (k : String) :
    lookupA (m.map (fun p => (p.1, f p.2))) k = (lookupA m k).map f := by
  induction m with
  | nil => simp [lookupA]
  | cons hd tl ih =>
    by_cases h : hd.1 = k
    · simp [lookupA, h]
    · simp [lookupA, h, ih]

theorem lookupA_eq_none_of_not_mem {α : Type} (m : List (String × α)) (k : String)
    (h : k ∉ m.map Prod.fst) : lookupA m k = none := by
  induction m with
  | nil => simp [lookupA]
  | cons hd tl ih =>
    simp only [List.map_cons, List.mem_cons] at h
    push_neg at h
    have hne : hd.1 ≠ k := fun he => h.1 he.symm
    simp [lookupA, hne, ih h.2]

theorem updateA_cons_pos {α : Type} (k' : String) (v' : α) (tl : List (String × α))
    (k : String) (v : α) (h : k' = k) :
    updateA ((k', v') :: tl) k v = (k, v) :: tl := by
  simp [updateA, h]

theorem updateA_cons_neg {α : Type} (k' : String) (v' : α) (tl : List (String × α))
    (k : String) (v : α) (h : ¬ k' = k) :
    updateA ((k', v') :: tl) k v = (k', v') :: updateA tl k v := by
  simp [updateA, h]

theorem mem_keys_updateA {α : Type} (m : List (String × α)) (k a : String) (v : α)
    (h : a ∈ (updateA m k v).map Prod.fst) : a ∈ m.map Prod.fst ∨ a = k := by
  induction m with
  | nil =>
    simp only [updateA, List.map_cons, List.map_nil, List.mem_singleton] at h
    exact Or.inr h
  | cons hd tl ih =>
    obtain ⟨k', v'⟩ := hd
    by_cases hk : k' = k
    · rw [updateA_cons_pos k' v' tl k v hk, List.map_cons, List.mem_cons] at h
      rcases h with h | h
      · exact Or.inr h
      · exact Or.inl (List.mem_cons_of_mem _ h)
    · rw [updateA_cons_neg k' v' tl k v hk, List.map_cons, List.mem_cons] at h
      rcases h with h | h
      · exact Or.inl (List.mem_cons.mpr (Or.inl h))
      · rcases ih h with h' | h'
        · exact Or.inl (List.mem_cons_of_mem _ h')
        · exact Or.inr h'

theorem keysNodup_updateA {α : Type} (m : List (String × α)) (k : String) (v : α)
    (h : keysNodup m) : keysNodup (updateA m k v) := by
  induction m with
  | nil => simp [updateA, keysNodup]
  | cons hd tl ih =>
    obtain ⟨k', v'⟩ := hd
    unfold keysNodup at h ⊢
    simp only [List.map_cons, List.nodup_cons] at h
    by_cases hk : k' = k
    · rw [updateA_cons_pos k' v' tl k v hk]
      simp only [List.map_cons, List.nodup_cons]
      exact ⟨hk ▸ h.1, h.2⟩
    · rw [updateA_cons_neg k' v' tl k v hk]
      simp only [List.map_cons, List.nodup_cons]
      refine ⟨fun hm => ?_, ih h.2⟩
      rcases mem_keys_updateA tl k k' v hm with h' | h'
      · exact h.1 h'
      · exact hk h'

theorem lookupA_eraseA_self {α : Type} (m : List (String × α)) (k : String)
    (h : keysNodup m) : lookupA (eraseA m k) k = none := by
  induction m with
  | nil => simp [eraseA, lookupA]
  | cons hd tl ih =>
    unfold keysNodup at h
    simp only [List.map_cons, List.nodup_cons] at h
    by_cases hk : hd.1 = k
    · simp only [eraseA, hk, if_pos]
      exact lookupA_eq_none_of_not_mem tl k (hk ▸ h.1)
    · simp [eraseA, lookupA, hk, ih h.2]

theorem filter_idem {α : Type} (p : α → Bool) (l : List α) :
    (l.filter p).filter p = l.filter p := by
  induction l with
  | nil => simp
  | cons hd tl ih =>
    by_cases h : p hd
    · simp [List.filter_cons, h, ih]
    · simp [List.filter_cons, h, ih]

/-- Folding the reader's ring-buffer append over a sequence of lines: when
the starting buffer holds at most 1000 entries, the final buffer is the last
1000 elements of all entries ever appended (all of them while they still
fit). -/
theorem foldl_appendConsole (ls : List String) :
    ∀ b : List String, b.length ≤ 1000 →
      ls.foldl appendConsole b = (b ++ ls).drop ((b ++ ls).length - 1000) := by
  induction ls with
  | nil =>
    intro b hb
    have h0 : b.length - 1000 = 0 := Nat.sub_eq_zero_of_le hb
    simp [h0]
  | cons a tl ih =>
    intro b hb
    rw [List.foldl_cons]
    by_cases hlen : (b ++ [a]).length ≤ 1000
    · have hstep : appendConsole b a = b ++ [a] := by
        unfold appendConsole
        rw [if_neg (Nat.not_lt.mpr hlen)]
      rw [hstep, ih (b ++ [a]) hlen]
      simp [List.append_assoc]
    · have hb1000 : b.length = 1000 := by
        simp only [List.length_append, List.length_singleton] at hlen
        omega
      have hstep : appendConsole b a = b.drop 1 ++ [a] := by
        unfold appendConsole
        have hgt : (b ++ [a]).length > 1000 := by
          simp [List.length_append, hb1000]
        rw [if_pos hgt]
        have h1 : (b ++ [a]).length - 1000 = 1 := by
          simp only [List.length_append, List.length_singleton, hb1000]
        rw [h1]
        exact List.drop_append_of_le_length (by omega)
      have hlen2 : (b.drop 1 ++ [a]).length ≤ 1000 := by
        simp [List.length_drop, hb1000]
      rw [hstep, ih (b.drop 1 ++ [a]) hlen2]
      have e2 : ((b.drop 1 ++ [a]) ++ tl).length - 1000 = tl.length := by
        simp only [List.length_append, List.length_drop, List.length_singleton, hb1000]
        omega
      have e1 : (b.drop 1 ++ [a]) ++ tl = (b ++ a :: tl).drop 1 := by
        rw [List.append_assoc, List.singleton_append,
            List.drop_append_of_le_length (show (1 : Nat) ≤ b.length by omega)]
      have e3 : (b ++ a :: tl).length - 1000 = tl.length + 1 := by
        simp only [List.length_append, List.length_cons, hb1000]
        omega
      rw [e2, e1, e3, List.drop_drop]
      rw [Nat.add_comm]



/-- Normalizing one entry twice gives the same result as normalizing it
once: after one pass every schema key is present up front and the preserved
extras contain no schema key, so the second pass reads back exactly what the
first wrote. -/
theorem normalizeServer_idem (n : String) (f : List (String × JVal)) :
    normalizeServer n (normalizeServer n f) = normalizeServer n f := by
  simp [normalizeServer, lookupA, knownKeys, filter_idem]

/-! The claims. -/

/-- C7: normalization is idempotent -- `normalize(normalize(d))` equals
`normalize(d)` for every store document `d`: defaults are filled for missing
fields, non-record-shaped entries are dropped, unknown extra fields are
preserved verbatim, and a second pass reproduces the first exactly, so the
second `save(load(f))` serializes identical normalized content. -/
theorem c7_normalize_idempotent (d : JVal) :
    validateAndNormalize (JVal.obj (validateAndNormalize d)) = validateAndNormalize d := by
  cases d with
  | obj entries =>
    simp only [validateAndNormalize]
    induction entries with
    | nil => simp
    | cons p tl ih =>
      obtain ⟨nm, v⟩ := p
      cases v with
      | obj fields =>
        simp only [List.filterMap_cons, List.filterMap_cons, normalizeServer_idem] at ih ⊢
        rw [ih]
      | null => simpa using ih
      | bool b => simpa using ih
      | num n => simpa using ih
      | str s => simpa using ih
      | arr xs => simpa using ih
  | null => rfl
  | bool b => rfl
  | num n => rfl
  | str s => rfl
  | arr xs => rfl

/-- C4: when the store file's contents fail to parse, `load_servers` does
not raise: it places the original corrupt bytes in the `.backup` sibling
(overwriting any prior backup -- `fs` is arbitrary, so any prior backup
content is covered), reinitializes the store file with the empty map, and
returns the empty map; a subsequent save of the empty map succeeds. -/
theorem c4_corrupt_load_quarantines (g : String) (fs : StoreFS)
    (h : fs.servers = some (Content.garbage g)) :
    (loadServers false ⟨false, false, false⟩ fs).1 = []
  ∧ (loadServers false ⟨false, false, false⟩ fs).2.backup = some (Content.garbage g)
  ∧ (loadServers false ⟨false, false, false⟩ fs).2.servers
      = some (Content.valid (JVal.obj []))
  ∧ (saveAtomic false ⟨false, false, false⟩ (loadServers false ⟨false, false, false⟩ fs).2
      (JVal.obj [])).1 = true := by
  simp [loadServers, h, parseContent, saveAtomic, validateAndNormalize]

/-- Witness for C4 at a concrete file system holding unparseable bytes and a
stale prior backup. -/
theorem c4_corrupt_load_quarantines_witness :
    ({ servers := some (Content.garbage "not valid json"), tmp := none, bak := none,
       backup := some (Content.garbage "stale") } : StoreFS).servers
      = some (Content.garbage "not valid json")
  ∧ (loadServers false ⟨false, false, false⟩
      { servers := some (Content.garbage "not valid json"), tmp := none, bak := none,
        backup := some (Content.garbage "stale") }).1 = [] :=
  ⟨rfl,
   (c4_corrupt_load_quarantines "not valid json"
     { servers := some (Content.garbage "not valid json"), tmp := none, bak := none,
       backup := some (Content.garbage "stale") } rfl).1⟩

/-- C5 (amended): on POSIX, `_save_servers_atomic` writes the normalized
serialization to the `.tmp` sibling, fsyncs, atomically renames it over the
target, and on any injected I/O failure returns `false` leaving the previous
store file untouched; on Windows, where an existing target is first moved
aside to a `.bak` sibling, a returned `false` leaves the target either
untouched or -- after a move-in failure -- missing, with the previous bytes
surviving only in the `.bak` sibling. -/
theorem c5_atomic_save (fl : SaveFail) (fs : StoreFS) (data : JVal) :
    (saveAtomic false fl fs data =
      if fl.writeTmp || fl.moveIn then (false, { fs with tmp := none })
      else (true, { fs with servers := some (Content.valid (JVal.obj (validateAndNormalize data))), tmp := none }))
  ∧ ((saveAtomic true fl fs data).1 = false →
      (saveAtomic true fl fs data).2.servers = fs.servers
      ∨ ((saveAtomic true fl fs data).2.servers = none
         ∧ (saveAtomic true fl fs data).2.bak = fs.servers)) := by
  obtain ⟨wt, ma, mi⟩ := fl
  constructor
  · cases wt <;> cases mi <;> simp [saveAtomic]
  · cases wt <;> cases ma <;> cases mi <;> cases hs : fs.servers <;> simp [saveAtomic, hs]

/-- Witness for C5: the Windows move-in failure path, with its `false`
return hypothesis discharged by computation. -/
theorem c5_atomic_save_witness :
    (saveAtomic true ⟨false, false, true⟩
        { servers := some (Content.valid (JVal.obj [])), tmp := none, bak := none,
          backup := none } (JVal.obj [])).2.servers
      = ({ servers := some (Content.valid (JVal.obj [])), tmp := none, bak := none,
           backup := none } : StoreFS).servers
  ∨ ((saveAtomic true ⟨false, false, true⟩
        { servers := some (Content.valid (JVal.obj [])), tmp := none, bak := none,
          backup := none } (JVal.obj [])).2.servers = none
     ∧ (saveAtomic true ⟨false, false, true⟩
          { servers := some (Content.valid (JVal.obj [])), tmp := none, bak := none,
            backup := none } (JVal.obj [])).2.bak
        = ({ servers := some (Content.valid (JVal.obj [])), tmp := none, bak := none,
             backup := none } : StoreFS).servers) :=
  (c5_atomic_save ⟨false, false, true⟩
    { servers := some (Content.valid (JVal.obj [])), tmp := none, bak := none,
      backup := none } (JVal.obj [])).2 rfl

/-- Counterexample to C5 as stated: on Windows, with the old store file
present and an I/O failure injected at the move of the temp file over the
target, the call returns `false` yet the previous good store file is no
longer at the target path (it survives only as the `.bak` sibling, and the
exception handler does not restore it). -/
theorem c5_counterexample :
    (saveAtomic true ⟨false, false, true⟩
        { servers := some (Content.valid (JVal.obj [("old", JVal.obj [])])), tmp := none,
          bak := none, backup := none } (JVal.obj [])).1 = false
  ∧ (saveAtomic true ⟨false, false, true⟩
        { servers := some (Content.valid (JVal.obj [("old", JVal.obj [])])), tmp := none,
          bak := none, backup := none } (JVal.obj [])).2.servers = none :=
  ⟨rfl, rfl⟩

/-- C6: after more than 1000 lines have been appended to a server's console
ring buffer, `get_console_output(name, 1000)` returns exactly the most
recent 1000 lines in their original append order -- never more.  The getter
is a pure function of the state (it neither blocks nor mutates the
buffer). -/
theorem c6_ring_buffer (ls : List String) (hN : 1000 < ls.length)
    (name : String) (s : MCServer) :
    getConsoleOutput
      { servers := [(name, { s with console_lines := ls.foldl appendConsole [] })]
        store := []
        disk := [] } name 1000
      = ls.drop (ls.length - 1000)
  ∧ (getConsoleOutput
      { servers := [(name, { s with console_lines := ls.foldl appendConsole [] })]
        store := []
        disk := [] } name 1000).length = 1000 := by
  have hbuf : ls.foldl appendConsole [] = ls.drop (ls.length - 1000) := by
    have h := foldl_appendConsole ls [] (by simp)
    simpa using h
  have hlen : (ls.drop (ls.length - 1000)).length = 1000 := by
    rw [List.length_drop]
    omega
  obtain ⟨a, l, hdrop⟩ : ∃ a l, ls.drop (ls.length - 1000) = a :: l := by
    cases hd : ls.drop (ls.length - 1000) with
    | nil => rw [hd] at hlen; simp at hlen
    | cons a l => exact ⟨a, l, rfl⟩
  have hs : lookupA
      [(name, { s with console_lines := ls.foldl appendConsole [] })] name
      = some { s with console_lines := ls.foldl appendConsole [] } := by
    simp [lookupA]
  have hlen3 : l.length = 999 := by
    rw [hdrop] at hlen
    simp only [List.length_cons] at hlen
    omega
  have hmain : getConsoleOutput
      { servers := [(name, { s with console_lines := ls.foldl appendConsole [] })]
        store := []
        disk := [] } name 1000
      = ls.drop (ls.length - 1000) := by
    have h1 : getConsoleOutput
        { servers := [(name, { s with console_lines := ls.foldl appendConsole [] })]
          store := []
          disk := [] } name 1000
        = if (ls.foldl appendConsole []).isEmpty then []
          else pySliceLast 1000 (ls.foldl appendConsole []) := by
      simp [getConsoleOutput, hs]
    rw [h1, hbuf, hdrop]
    simp [pySliceLast, hlen3]
  exact ⟨hmain, by rw [hmain, hlen]⟩

/-- Witness for C6 at 1001 appended lines. -/
theorem c6_ring_buffer_witness :
    1000 < (List.replicate 1001 "x").length
  ∧ (getConsoleOutput
      { servers := [("a", { mkServerRecord "a" "servers/a" "paper-1.20.1.jar" "512M" "1024M" 25565 10 with
                            console_lines := (List.replicate 1001 "x").foldl appendConsole [] })]
        store := []
        disk := [] } "a" 1000).length = 1000 :=
  ⟨by rw [List.length_replicate]; omega,
   (c6_ring_buffer (List.replicate 1001 "x") (by rw [List.length_replicate]; omega) "a"
     (mkServerRecord "a" "servers/a" "paper-1.20.1.jar" "512M" "1024M" 25565 10)).2⟩

/-- C8: `stop_server` on a registered server whose status is already
`stopped` returns success with no side effects at all -- the state (map,
store, disk) is returned unchanged and the effect trace is empty: no
shutdown line, no signal, no status change, no persistence write. -/
theorem c8_stop_idempotent (w : World) (st : MgrState) (name : String)
    (s : MCServer) (hs : lookupA st.servers name = some s)
    (hstat : s.status = "stopped") :
    stopServer w st name = (true, st, []) := by
  simp [stopServer, hs, hstat]

/-- Witness for C8 at a concrete one-server state. -/
theorem c8_stop_idempotent_witness :
    lookupA ({ servers := [("a", mkServerRecord "a" "servers/a" "paper-1.20.1.jar" "512M" "1024M" 25565 10)]
               store := []
               disk := [] } : MgrState).servers "a"
      = some (mkServerRecord "a" "servers/a" "paper-1.20.1.jar" "512M" "1024M" 25565 10)
  ∧ (mkServerRecord "a" "servers/a" "paper-1.20.1.jar" "512M" "1024M" 25565 10).status = "stopped"
  ∧ stopServer
      { pidExists := fun _ => true, exited := fun _ => false, gracefulExit := fun _ => true,
        javaCheck := none, dirExists := fun _ => true, downloadOk := false, spawnResult := none }
      { servers := [("a", mkServerRecord "a" "servers/a" "paper-1.20.1.jar" "512M" "1024M" 25565 10)]
        store := []
        disk := [] } "a"
      = (true,
         { servers := [("a", mkServerRecord "a" "servers/a" "paper-1.20.1.jar" "512M" "1024M" 25565 10)]
           store := []
           disk := [] }, []) :=
  ⟨rfl, rfl,
   c8_stop_idempotent
     { pidExists := fun _ => true, exited := fun _ => false, gracefulExit := fun _ => true,
       javaCheck := none, dirExists := fun _ => true, downloadOk := false, spawnResult := none }
     { servers := [("a", mkServerRecord "a" "servers/a" "paper-1.20.1.jar" "512M" "1024M" 25565 10)]
       store := []
       disk := [] } "a"
     (mkServerRecord "a" "servers/a" "paper-1.20.1.jar" "512M" "1024M" 25565 10) rfl rfl⟩

/-- C10: `get_server_status` on a name absent from the map returns the
string `"unknown"` -- a value outside the stopped/starting/running/stopping
enum -- without raising and without falling back to `"stopped"`; the state
is untouched. -/
theorem c10_unknown_status (w : World) (st : MgrState) (name : String)
    (h : lookupA st.servers name = none) :
    getServerStatus w st name = ("unknown", st) ∧ "unknown" ≠ "stopped" := by
  constructor
  · simp [getServerStatus, h]
  · decide

/-- Witness for C10 on the empty manager state. -/
theorem c10_unknown_status_witness :
    lookupA ({ servers := [], store := [], disk := [] } : MgrState).servers "ghost" = none
  ∧ getServerStatus
      { pidExists := fun _ => false, exited := fun _ => false, gracefulExit := fun _ => false,
        javaCheck := none, dirExists := fun _ => false, downloadOk := false, spawnResult := none }
      { servers := [], store := [], disk := [] } "ghost"
      = ("unknown", { servers := [], store := [], disk := [] }) :=
  ⟨rfl,
   (c10_unknown_status
     { pidExists := fun _ => false, exited := fun _ => false, gracefulExit := fun _ => false,
       javaCheck := none, dirExists := fun _ => false, downloadOk := false, spawnResult := none }
     { servers := [], store := [], disk := [] } "ghost" rfl).1⟩

/-- The operation `stop_server` never touches the scaffold files on disk, in any of its
branches. -/
theorem stopServer_disk (w : World) (st : MgrState) (name : String) :
    (stopServer w st name).2.1.disk = st.disk := by
  unfold stopServer
  cases hl : lookupA st.servers name with
  | none => rfl
  | some s =>
    by_cases hst : s.status = "stopped"
    · simp [hst]
    · simp [hst, mgrSave]

/-- The map produced by `stop_server` is either the input map (early
returns) or the input map with the named record replaced by its cleared
version. -/
theorem stopServer_servers (w : World) (st : MgrState) (name : String) :
    (stopServer w st name).2.1.servers = st.servers
  ∨ ∃ s2, (stopServer w st name).2.1.servers = updateA st.servers name s2 := by
  unfold stopServer
  cases hl : lookupA st.servers name with
  | none => exact Or.inl rfl
  | some s =>
    by_cases hst : s.status = "stopped"
    · simp [hst]
    · right
      refine ⟨{ s with status := "stopped", pid := none, process := none }, ?_⟩
      simp [hst, mgrSave]

/-- C9: `delete_server` on a registered name succeeds, performs the stop
first (its effect trace is exactly the stop's effects followed by the final
persistence write), removes the record from the in-memory map and from the
persisted store, and leaves every file on disk untouched. -/
theorem c9_delete_removes_record (w : World) (st : MgrState) (name : String)
    (hreg : (lookupA st.servers name).isSome) (hnd : keysNodup st.servers) :
    (deleteServer w st name).1 = true
  ∧ lookupA (deleteServer w st name).2.1.servers name = none
  ∧ lookupA (deleteServer w st name).2.1.store name = none
  ∧ (deleteServer w st name).2.1.disk = st.disk
  ∧ (deleteServer w st name).2.2 = (stopServer w st name).2.2 ++ [Effect.persist] := by
  obtain ⟨s, hs⟩ := Option.isSome_iff_exists.mp hreg
  have hnd2 : keysNodup (stopServer w st name).2.1.servers := by
    rcases stopServer_servers w st name with h | ⟨s2, h⟩
    · rw [h]; exact hnd
    · rw [h]; exact keysNodup_updateA _ _ _ hnd
  have hdel : deleteServer w st name =
      (true,
       mgrSave { (stopServer w st name).2.1 with
                 servers := eraseA (stopServer w st name).2.1.servers name },
       (stopServer w st name).2.2 ++ [Effect.persist]) := by
    unfold deleteServer
    rw [hs]
  refine ⟨by rw [hdel], ?_, ?_, ?_, by rw [hdel]⟩
  · rw [hdel]
    show lookupA (eraseA (stopServer w st name).2.1.servers name) name = none
    exact lookupA_eraseA_self _ _ hnd2
  · rw [hdel]
    show lookupA ((eraseA (stopServer w st name).2.1.servers name).map
      (fun p => (p.1, toDict p.2))) name = none
    rw [lookupA_map, lookupA_eraseA_self _ _ hnd2]
    rfl
  · rw [hdel]
    show (stopServer w st name).2.1.disk = st.disk
    exact stopServer_disk w st name

/-- Witness for C9 at a concrete one-server state with a running record. -/
theorem c9_delete_removes_record_witness :
    (lookupA ({ servers := [("a", { mkServerRecord "a" "servers/a" "paper-1.20.1.jar" "512M" "1024M" 25565 10 with
                                    status := "running", pid := some 7, process := some 7 })]
                store := []
                disk := [("servers/a/eula.txt", eulaContent)] } : MgrState).servers "a").isSome
  ∧ (deleteServer
      { pidExists := fun _ => true, exited := fun _ => false, gracefulExit := fun _ => true,
        javaCheck := none, dirExists := fun _ => true, downloadOk := false, spawnResult := none }
      { servers := [("a", { mkServerRecord "a" "servers/a" "paper-1.20.1.jar" "512M" "1024M" 25565 10 with
                            status := "running", pid := some 7, process := some 7 })]
        store := []
        disk := [("servers/a/eula.txt", eulaContent)] } "a").2.1.disk
      = [("servers/a/eula.txt", eulaContent)] :=
  ⟨rfl,
   (c9_delete_removes_record
     { pidExists := fun _ => true, exited := fun _ => false, gracefulExit := fun _ => true,
       javaCheck := none, dirExists := fun _ => true, downloadOk := false, spawnResult := none }
     { servers := [("a", { mkServerRecord "a" "servers/a" "paper-1.20.1.jar" "512M" "1024M" 25565 10 with
                           status := "running", pid := some 7, process := some 7 })]
       store := []
       disk := [("servers/a/eula.txt", eulaContent)] } "a" rfl (by simp [keysNodup])).2.2.2.1⟩

/-- C2 (amended): `create_server` performs no uniqueness validation.
Invoked with a name that is already registered, it succeeds and silently
overwrites both the in-memory entry and the persisted record with the newly
constructed configuration. -/
theorem c2_create_overwrites (now : String) (st : MgrState)
    (name version min_ram max_ram storage_path : String)
    (port storage_limit : Nat)
    (_hreg : (lookupA st.servers name).isSome) :
    (createServer now st name version min_ram max_ram storage_path port storage_limit).1
      = true
  ∧ lookupA (createServer now st name version min_ram max_ram storage_path
      port storage_limit).2.servers name
      = some (mkServerRecord name
          ((if storage_path = "" || storage_path = "servers" then "servers"
            else storage_path) ++ "/" ++ name)
          ("paper-" ++ version ++ ".jar") min_ram max_ram port storage_limit)
  ∧ lookupA (createServer now st name version min_ram max_ram storage_path
      port storage_limit).2.store name
      = some (toDict (mkServerRecord name
          ((if storage_path = "" || storage_path = "servers" then "servers"
            else storage_path) ++ "/" ++ name)
          ("paper-" ++ version ++ ".jar") min_ram max_ram port storage_limit)) := by
  refine ⟨rfl, ?_, ?_⟩
  · show lookupA (updateA st.servers name _) name = _
    rw [lookupA_updateA_self]
  · show lookupA ((updateA st.servers name _).map (fun p => (p.1, toDict p.2))) name = _
    rw [lookupA_map, lookupA_updateA_self]
    rfl

/-- Counterexample to C2 as stated: with `"a"` already registered,
`create_server` returns success (it was claimed to fail with a DuplicateName
error) and the map entry for `"a"` is replaced (it was claimed to be left
unchanged). -/
theorem c2_counterexample :
    (createServer "2025-01-01 00:00:00"
        { servers := [("a", mkServerRecord "a" "servers/a" "paper-1.20.1.jar" "512M" "1024M" 25565 10)]
          store := [("a", toDict (mkServerRecord "a" "servers/a" "paper-1.20.1.jar" "512M" "1024M" 25565 10))]
          disk := [] } "a" "1.21.0" "1G" "2G" "servers" 25566 20).1 = true
  ∧ lookupA (createServer "2025-01-01 00:00:00"
        { servers := [("a", mkServerRecord "a" "servers/a" "paper-1.20.1.jar" "512M" "1024M" 25565 10)]
          store := [("a", toDict (mkServerRecord "a" "servers/a" "paper-1.20.1.jar" "512M" "1024M" 25565 10))]
          disk := [] } "a" "1.21.0" "1G" "2G" "servers" 25566 20).2.servers "a"
      ≠ some (mkServerRecord "a" "servers/a" "paper-1.20.1.jar" "512M" "1024M" 25565 10) := by
  constructor
  · rfl
  · intro h
    have h2 : lookupA (createServer "2025-01-01 00:00:00"
        { servers := [("a", mkServerRecord "a" "servers/a" "paper-1.20.1.jar" "512M" "1024M" 25565 10)]
          store := [("a", toDict (mkServerRecord "a" "servers/a" "paper-1.20.1.jar" "512M" "1024M" 25565 10))]
          disk := [] } "a" "1.21.0" "1G" "2G" "servers" 25566 20).2.servers "a"
        = some (mkServerRecord "a" "servers/a" "paper-1.21.0.jar" "1G" "2G" 25566 20) := by
      show lookupA (updateA _ "a" _) "a" = _
      rw [lookupA_updateA_self]
      rfl
    rw [h2] at h
    simp [mkServerRecord] at h

/-- Witness for C2's amended theorem at the same concrete duplicate-name
state. -/
theorem c2_create_overwrites_witness :
    (lookupA ({ servers := [("a", mkServerRecord "a" "servers/a" "paper-1.20.1.jar" "512M" "1024M" 25565 10)]
                store := [("a", toDict (mkServerRecord "a" "servers/a" "paper-1.20.1.jar" "512M" "1024M" 25565 10))]
                disk := [] } : MgrState).servers "a").isSome
  ∧ lookupA (createServer "2025-01-01 00:00:00"
        { servers := [("a", mkServerRecord "a" "servers/a" "paper-1.20.1.jar" "512M" "1024M" 25565 10)]
          store := [("a", toDict (mkServerRecord "a" "servers/a" "paper-1.20.1.jar" "512M" "1024M" 25565 10))]
          disk := [] } "a" "1.21.0" "1G" "2G" "servers" 25566 20).2.servers "a"
      = some (mkServerRecord "a"
          ((if ("servers" : String) = "" || ("servers" : String) = "servers" then "servers"
            else "servers") ++ "/" ++ "a")
          ("paper-" ++ "1.21.0" ++ ".jar") "1G" "2G" 25566 20) :=
  ⟨rfl,
   (c2_create_overwrites "2025-01-01 00:00:00"
     { servers := [("a", mkServerRecord "a" "servers/a" "paper-1.20.1.jar" "512M" "1024M" 25565 10)]
       store := [("a", toDict (mkServerRecord "a" "servers/a" "paper-1.20.1.jar" "512M" "1024M" 25565 10))]
       disk := [] } "a" "1.21.0" "1G" "2G" "servers" 25566 20 rfl).2.1⟩

/-- C1 (amended): a successful `start_server` on a registered, non-running
server with the Java check passing, the directory and the launch script and
the jar present, and a successful spawn, assigns `starting` and then --
still inside the call, after a bare post-spawn liveness check and before any
output line has been observed -- overwrites the status with `running` (or
`stopped` if the new pid is already dead), records the pid, resets the
console buffer, persists, and returns success.  Independently, the output
reader also sets the status to `running` when it observes a line containing
the readiness marker, appending the timestamped line to the buffer and
persisting. -/
theorem c1_start_transitions (w : World) (st : MgrState) (name : String)
    (s : MCServer) (p : Nat)
    (hs : lookupA st.servers name = some s)
    (hr : s.status ≠ "running")
    (hj : w.javaCheck = some (true, true))
    (hd : w.dirExists s.path = true)
    (hb : hasFile st.disk (s.path ++ "/start.bat") = true)
    (hjar : hasFile st.disk (s.path ++ "/" ++ s.jar) = true)
    (hsp : w.spawnResult = some p) :
    ((startServer w st name).1 = true
     ∧ lookupA (startServer w st name).2.1.servers name
         = some { s with
                  console_lines := []
                  process := some p
                  pid := some p
                  status := if w.pidExists p then "running" else "stopped" }
     ∧ (startServer w st name).2.2
         = ["starting", if w.pidExists p then "running" else "stopped"])
  ∧ (∀ ts l st2 s2, lookupA st2.servers name = some s2 → l.trim ≠ "" →
       readinessMarker l.trim = true →
       lookupA (monitorLine ts st2 name l).servers name
         = some { s2 with
                  console_lines := appendConsole s2.console_lines ("[" ++ ts ++ "] " ++ l.trim)
                  status := "running" }) := by
  constructor
  · have hstart : startServer w st name
        = (true,
           mgrSave { st with
                     servers := updateA st.servers name
                       { s with
                         console_lines := []
                         process := some p
                         pid := some p
                         status := if w.pidExists p then "running" else "stopped" } },
           ["starting", if w.pidExists p then "running" else "stopped"]) := by
      simp [startServer, hs, hr, hj, hsp, hd, hb, hjar, javaBlocks, mgrSave]
    rw [hstart]
    refine ⟨rfl, ?_, rfl⟩
    show lookupA (updateA st.servers name _) name = _
    rw [lookupA_updateA_self]
  · intro ts l st2 s2 hs2 hne hmark
    simp only [monitorLine, hs2, hne, hmark, if_true, if_false, ite_false, ite_true, mgrSave]
    show lookupA (updateA st2.servers name _) name = _
    rw [lookupA_updateA_self]

/-- Counterexample to C1 as stated: a successful start with a live spawned
process returns with the record already in status `running` while its
console buffer is empty -- not a single output line, let alone one carrying
the readiness marker, has been observed.  The status write trace of the call
is `starting` followed immediately by `running`. -/
theorem c1_counterexample :
    (startServer
        { pidExists := fun _ => true, exited := fun _ => false, gracefulExit := fun _ => true,
          javaCheck := some (true, true), dirExists := fun _ => true, downloadOk := false,
          spawnResult := some 42 }
        { servers := [("a", mkServerRecord "a" "servers/a" "paper-1.20.1.jar" "512M" "1024M" 25565 10)]
          store := []
          disk := [("servers/a/start.bat", "b"), ("servers/a/paper-1.20.1.jar", "j")] }
        "a").1 = true
  ∧ (startServer
        { pidExists := fun _ => true, exited := fun _ => false, gracefulExit := fun _ => true,
          javaCheck := some (true, true), dirExists := fun _ => true, downloadOk := false,
          spawnResult := some 42 }
        { servers := [("a", mkServerRecord "a" "servers/a" "paper-1.20.1.jar" "512M" "1024M" 25565 10)]
          store := []
          disk := [("servers/a/start.bat", "b"), ("servers/a/paper-1.20.1.jar", "j")] }
        "a").2.2 = ["starting", "running"]
  ∧ lookupA (startServer
        { pidExists := fun _ => true, exited := fun _ => false, gracefulExit := fun _ => true,
          javaCheck := some (true, true), dirExists := fun _ => true, downloadOk := false,
          spawnResult := some 42 }
        { servers := [("a", mkServerRecord "a" "servers/a" "paper-1.20.1.jar" "512M" "1024M" 25565 10)]
          store := []
          disk := [("servers/a/start.bat", "b"), ("servers/a/paper-1.20.1.jar", "j")] }
        "a").2.1.servers "a"
      = some { mkServerRecord "a" "servers/a" "paper-1.20.1.jar" "512M" "1024M" 25565 10 with
               process := some 42
               pid := some 42
               status := "running"
               console_lines := [] } :=
  ⟨rfl, rfl, rfl⟩

/-- Witness for C1's amended theorem, hypotheses discharged by computation
at the same concrete start scenario. -/
theorem c1_start_transitions_witness :
    lookupA ({ servers := [("a", mkServerRecord "a" "servers/a" "paper-1.20.1.jar" "512M" "1024M" 25565 10)]
               store := []
               disk := [("servers/a/start.bat", "b"), ("servers/a/paper-1.20.1.jar", "j")] } : MgrState).servers "a"
      = some (mkServerRecord "a" "servers/a" "paper-1.20.1.jar" "512M" "1024M" 25565 10)
  ∧ (startServer
        { pidExists := fun _ => true, exited := fun _ => false, gracefulExit := fun _ => true,
          javaCheck := some (true, true), dirExists := fun _ => true, downloadOk := false,
          spawnResult := some 42 }
        { servers := [("a", mkServerRecord "a" "servers/a" "paper-1.20.1.jar" "512M" "1024M" 25565 10)]
          store := []
          disk := [("servers/a/start.bat", "b"), ("servers/a/paper-1.20.1.jar", "j")] }
        "a").1 = true :=
  ⟨rfl,
   (c1_start_transitions
     { pidExists := fun _ => true, exited := fun _ => false, gracefulExit := fun _ => true,
       javaCheck := some (true, true), dirExists := fun _ => true, downloadOk := false,
       spawnResult := some 42 }
     { servers := [("a", mkServerRecord "a" "servers/a" "paper-1.20.1.jar" "512M" "1024M" 25565 10)]
       store := []
       disk := [("servers/a/start.bat", "b"), ("servers/a/paper-1.20.1.jar", "j")] }
     "a" (mkServerRecord "a" "servers/a" "paper-1.20.1.jar" "512M" "1024M" 25565 10) 42
     rfl (by decide) rfl rfl rfl rfl rfl).1.1⟩

/-- C3 (amended): when the OS process backing a `running` record dies
externally, `get_server_status` returns `"stopped"` but performs no
correction of the record (the state comes back unchanged); one tick of the
liveness poller then clears the in-memory record to `stopped`/no-pid, but
the poller itself never writes the persisted store -- the store is only
re-persisted by the output reader's end-of-stream cleanup or by the next
mutating operation. -/
theorem c3_external_kill (w : World) (st : MgrState) (name : String)
    (s : MCServer) (p hp : Nat)
    (hs : lookupA st.servers name = some s)
    (hstat : s.status = "running")
    (hpid : s.pid = some p)
    (hproc : s.process = some hp)
    (hdead : w.pidExists p = false) :
    getServerStatus w st name = ("stopped", st)
  ∧ lookupA (pollTick w st).servers name
      = some { s with status := "stopped", pid := none, process := none }
  ∧ (pollTick w st).store = st.store := by
  refine ⟨?_, ?_, rfl⟩
  · simp [getServerStatus, hs, hpid, hdead]
  · show lookupA (st.servers.map fun q => (q.1, pollTickServer w q.2)) name = _
    rw [lookupA_map, hs]
    show some (pollTickServer w s) = _
    simp [pollTickServer, hstat, hproc, hpid, hdead]

/-- Counterexample to C3 as stated: with the backing pid dead,
`get_server_status` does return `"stopped"` but the record keeps status
`running` (no self-healing side effect on the record), and after a full
poller tick the persisted record still carries the stale pid 7 -- the
poller does not persist the cleared identifier. -/
theorem c3_counterexample :
    (getServerStatus
        { pidExists := fun _ => false, exited := fun _ => true, gracefulExit := fun _ => true,
          javaCheck := none, dirExists := fun _ => true, downloadOk := false, spawnResult := none }
        { servers := [("a", { mkServerRecord "a" "servers/a" "paper-1.20.1.jar" "512M" "1024M" 25565 10 with
                              status := "running", pid := some 7, process := some 7 })]
          store := [("a", toDict { mkServerRecord "a" "servers/a" "paper-1.20.1.jar" "512M" "1024M" 25565 10 with
                                   status := "running", pid := some 7, process := some 7 })]
          disk := [] } "a").1 = "stopped"
  ∧ (Option.map MCServer.status
      (lookupA (getServerStatus
        { pidExists := fun _ => false, exited := fun _ => true, gracefulExit := fun _ => true,
          javaCheck := none, dirExists := fun _ => true, downloadOk := false, spawnResult := none }
        { servers := [("a", { mkServerRecord "a" "servers/a" "paper-1.20.1.jar" "512M" "1024M" 25565 10 with
                              status := "running", pid := some 7, process := some 7 })]
          store := [("a", toDict { mkServerRecord "a" "servers/a" "paper-1.20.1.jar" "512M" "1024M" 25565 10 with
                                   status := "running", pid := some 7, process := some 7 })]
          disk := [] } "a").2.servers "a")) = some "running"
  ∧ (Option.map PRec.pid
      (lookupA (pollTick
        { pidExists := fun _ => false, exited := fun _ => true, gracefulExit := fun _ => true,
          javaCheck := none, dirExists := fun _ => true, downloadOk := false, spawnResult := none }
        { servers := [("a", { mkServerRecord "a" "servers/a" "paper-1.20.1.jar" "512M" "1024M" 25565 10 with
                              status := "running", pid := some 7, process := some 7 })]
          store := [("a", toDict { mkServerRecord "a" "servers/a" "paper-1.20.1.jar" "512M" "1024M" 25565 10 with
                                   status := "running", pid := some 7, process := some 7 })]
          disk := [] }).store "a")) = some (some 7) :=
  ⟨rfl, rfl, rfl⟩

/-- Witness for C3's amended theorem at the same concrete externally-killed
scenario. -/
theorem c3_external_kill_witness :
    lookupA ({ servers := [("a", { mkServerRecord "a" "servers/a" "paper-1.20.1.jar" "512M" "1024M" 25565 10 with
                                   status := "running", pid := some 7, process := some 7 })]
               store := []
               disk := [] } : MgrState).servers "a"
      = some { mkServerRecord "a" "servers/a" "paper-1.20.1.jar" "512M" "1024M" 25565 10 with
               status := "running", pid := some 7, process := some 7 }
  ∧ getServerStatus
      { pidExists := fun _ => false, exited := fun _ => true, gracefulExit := fun _ => true,
        javaCheck := none, dirExists := fun _ => true, downloadOk := false, spawnResult := none }
      { servers := [("a", { mkServerRecord "a" "servers/a" "paper-1.20.1.jar" "512M" "1024M" 25565 10 with
                            status := "running", pid := some 7, process := some 7 })]
        store := []
        disk := [] } "a"
      = ("stopped",
         { servers := [("a", { mkServerRecord "a" "servers/a" "paper-1.20.1.jar" "512M" "1024M" 25565 10 with
                               status := "running", pid := some 7, process := some 7 })]
           store := []
           disk := [] }) :=
  ⟨rfl,
   (c3_external_kill
     { pidExists := fun _ => false, exited := fun _ => true, gracefulExit := fun _ => true,
       javaCheck := none, dirExists := fun _ => true, downloadOk := false, spawnResult := none }
     { servers := [("a", { mkServerRecord "a" "servers/a" "paper-1.20.1.jar" "512M" "1024M" 25565 10 with
                           status := "running", pid := some 7, process := some 7 })]
       store := []
       disk := [] } "a"
     { mkServerRecord "a" "servers/a" "paper-1.20.1.jar" "512M" "1024M" 25565 10 with
       status := "running", pid := some 7, process := some 7 } 7 7
     rfl rfl rfl rfl rfl).1⟩
